import Mathlib

/-!
Verification of the novita GPU-cloud SDK's resource-client contract layer.

The development shallowly embeds the pure request/response logic of the SDK:
JSON payloads become an inductive `Json` type, pydantic model validation
becomes total Lean functions returning `Except PyErr _`, and each resource
client method is split into the transport requests it issues and the pure
function it applies to the response payload.  Code of the repository that is
only declared or tested here (the generated models file, the exception
classes and the transport client) is modelled from the specification, with
doc comments marking each such definition.
-/

/-- A JSON value, as produced by `response.json()` in the SDK.  Numbers are
modelled as integers: every numeric value appearing on the wire in this SDK
(ids, sizes, timestamps, raw prices) is integral; price division happens
after parsing, inside the models, and is modelled with `Rat` there. -/
inductive Json where
  | null : Json
  | bool : Bool → Json
  | num : Int → Json
  | str : String → Json
  | arr : List Json → Json
  | obj : List (String × Json) → Json

/-- Dictionary lookup on a JSON object's field list, first match wins
(mirrors Python `dict` key access on the decoded payload). -/
def Json.lookup (fields : List (String × Json)) (k : String) : Option Json :=
  (fields.find? (fun kv => kv.1 == k)).map (fun kv => kv.2)

/-- The SDK's exception taxonomy (`novita/exceptions.py` is not under the
provided sources; the constructors follow the spec's error-handling design:
AuthenticationError, BadRequestError, NotFoundError, RateLimitError and the
catch-all APIError carrying status code and raw body), plus the validation
error pydantic raises when a model rejects a payload and the Python
built-in NotImplementedError raised by the unimplemented metrics stub. -/
inductive PyErr where
  | authenticationError : String → PyErr
  | badRequestError : String → PyErr
  | notFoundError : String → PyErr
  | rateLimitError : String → PyErr
  | apiError : Nat → String → PyErr
  | validationError : String → PyErr
  | notImplementedError : String → PyErr
deriving DecidableEq

/-- Require a string value (pydantic `str` field). -/
def Json.asStr : Json → Except PyErr String
  | .str s => .ok s
  | _ => .error (.validationError "Input should be a valid string")

/-- Require an integer value (pydantic `int` field). -/
def Json.asInt : Json → Except PyErr Int
  | .num n => .ok n
  | _ => .error (.validationError "Input should be a valid integer")

/-- Require a boolean value (pydantic `bool` field). -/
def Json.asBool : Json → Except PyErr Bool
  | .bool b => .ok b
  | _ => .error (.validationError "Input should be a valid boolean")

/-- Required field of an object's field list (pydantic raises a validation
error naming the missing field). -/
def Json.reqField (fields : List (String × Json)) (k : String) : Except PyErr Json :=
  match Json.lookup fields k with
  | some v => .ok v
  | none => .error (.validationError (k ++ ": Field required"))

/-- Optional nullable field: a missing key or a JSON null both yield `none`
(pydantic `T | None = None`). -/
def Json.optField (fields : List (String × Json)) (k : String) : Option Json :=
  match Json.lookup fields k with
  | some .null => none
  | some v => some v
  | none => none

/-- Optional string field. -/
def Json.optStr (fields : List (String × Json)) (k : String) : Except PyErr (Option String) :=
  match Json.optField fields k with
  | some v => (v.asStr).map some
  | none => .ok none

/-- Optional integer field. -/
def Json.optInt (fields : List (String × Json)) (k : String) : Except PyErr (Option Int) :=
  match Json.optField fields k with
  | some v => (v.asInt).map some
  | none => .ok none

/-- Lax integer reading: pydantic v2 coerces a digit string into an `int`
field (the products endpoint returns `spotPrice` as a decimal string). -/
def Json.asIntLax : Json → Except PyErr Int
  | .num n => .ok n
  | .str s =>
    match s.toInt? with
    | some n => .ok n
    | none => .error (.validationError "Input should be a valid integer")
  | _ => .error (.validationError "Input should be a valid integer")

/-- Optional lax integer field. -/
def Json.optIntLax (fields : List (String × Json)) (k : String) : Except PyErr (Option Int) :=
  match Json.optField fields k with
  | some v => (v.asIntLax).map some
  | none => .ok none

/-- Validate every element of a JSON array in order, failing on the first
element the model rejects (pydantic validation of a `list[Model]` field). -/
def validateAll {α : Type} (f : Json → Except PyErr α) : List Json → Except PyErr (List α)
  | [] => .ok []
  | x :: xs => do
    let y ← f x
    let ys ← validateAll f xs
    .ok (y :: ys)

/-! ## Transport layer -/

/-- The HTTP verb of a transport call: the transport client exposes only
`get` and `post` primitives. -/
inductive Verb where
  | get : Verb
  | post : Verb
deriving DecidableEq

/-- One transport request as issued by a resource-client method: the verb,
the path handed to the transport client, the query parameters of a `get`,
and the JSON body of a `post`. -/
structure Request where
  verb : Verb
  path : String
  params : List (String × String)
  body : Option Json

/-- Modelled from the spec: the fixed API version prefix prepended by the
resource base class (`novita/api/resources/gpu/base.py` is not under the
provided sources; the prefix is pinned by every mocked URL in the unit
tests: `https://api.novita.ai/gpu-instance/openapi/v1/...`). -/
def BASE_PATH : String := "/gpu-instance/openapi/v1"

/-- An HTTP response as seen by the response-to-exception translator:
status code, decoded JSON body, and raw body text. -/
structure HttpResponse where
  status : Nat
  body : Json
  text : String

/-- Modelled from the spec: the message of a 400 response is taken from a
`message` field in the JSON body if present, else a generic message. -/
def badRequestMessage (body : Json) : String :=
  match body with
  | .obj fields =>
    match Json.lookup fields "message" with
    | some (.str m) => m
    | _ => "Bad request"
  | _ => "Bad request"

/-- Modelled from the spec: the response-to-exception translator
(`NovitaClient._handle_response`; `novita/client.py` is not under the
provided sources).  It passes 2xx responses through unchanged and maps
non-2xx status codes, checked in the spec's order, to one typed exception:
401 AuthenticationError with a fixed message, 400 BadRequestError carrying
the body's `message` field when present, 404 NotFoundError, 429
RateLimitError, and any other non-2xx APIError carrying the status code and
raw body text.  The fixed message strings follow the unit tests of the
translator. -/
def handle_response (resp : HttpResponse) : Except PyErr HttpResponse :=
  if 200 ≤ resp.status ∧ resp.status < 300 then
    .ok resp
  else if resp.status = 401 then
    .error (.authenticationError "Authentication failed")
  else if resp.status = 400 then
    .error (.badRequestError (badRequestMessage resp.body))
  else if resp.status = 404 then
    .error (.notFoundError "Resource not found")
  else if resp.status = 429 then
    .error (.rateLimitError "Rate limit exceeded")
  else
    .error (.apiError resp.status ("Server error: " ++ resp.text))

/-- A resource-client call as the caller observes it: the transport result
is first passed through the translator, and only a passed-through 2xx
response has its JSON body handed to the resource client's pure response
parser.  This composition is the uniform shape of every resource-client
method in the SDK. -/
def runCall {α : Type} (parse : Json → Except PyErr α) (resp : HttpResponse) :
    Except PyErr α :=
  match handle_response resp with
  | .ok r => parse r.body
  | .error e => .error e

/-! ## Generated response models used by the networks resource

`novita/generated/models.py` is an OpenAPI-derived generated file and is not
under the provided sources; the spec treats it as an external code-generation
input whose shape the resource clients consume.  `Network` and
`NetworkModel` are therefore modelled as validated wrappers around a JSON
object's fields: pydantic validation of a model accepts exactly a JSON
object (dict) and rejects any other payload. -/

/-- Modelled from the spec: the generated single-network detail model
(`novita.generated.models.Network`); validation requires a JSON object and
retains its fields. -/
structure Network where
  fields : List (String × Json)

/-- Modelled from the spec: `Network.model_validate` — pydantic validation
of a `Network`, accepting exactly a JSON object. -/
def Network.model_validate : Json → Except PyErr Network
  | .obj fields => .ok ⟨fields⟩
  | _ => .error (.validationError "Input should be a valid dictionary")

/-- Modelled from the spec: the generated network list-element model
(`novita.generated.models.NetworkModel`). -/
structure NetworkModel where
  fields : List (String × Json)

/-- Modelled from the spec: `NetworkModel.model_validate`. -/
def NetworkModel.model_validate : Json → Except PyErr NetworkModel
  | .obj fields => .ok ⟨fields⟩
  | _ => .error (.validationError "Input should be a valid dictionary")

/-- Modelled from the spec: the generated list-networks envelope model
(`novita.generated.models.ListNetworksResponse`).  Its `network` field
carries the element list under the wire key `networks`, as exercised by the
unit tests' mocked payloads. -/
structure ListNetworksResponse where
  network : List NetworkModel

/-- Modelled from the spec: `ListNetworksResponse.model_validate` —
requires an object whose `networks` key holds an array and validates each
element. -/
def ListNetworksResponse.model_validate : Json → Except PyErr ListNetworksResponse
  | .obj fields =>
    match Json.lookup fields "networks" with
    | some (.arr elems) => (validateAll NetworkModel.model_validate elems).map ListNetworksResponse.mk
    | _ => .error (.validationError "networks: Field required")
  | _ => .error (.validationError "Input should be a valid dictionary")

/-! ## The networks resource (`novita/api/resources/gpu/networks.py`) -/

/-- `_parse_single_network` — parse a single network from an API response
payload: a dict payload is first unwrapped at its `network` key when that
key is present (`payload.get("network", payload)`), a list payload raises
`NotFoundError("Network not found")` when empty and is replaced by its
first element otherwise, and the result is validated as a `Network`. -/
def parse_single_network (payload : Json) : Except PyErr Network :=
  let raw : Json :=
    match payload with
    | .obj fields => (Json.lookup fields "network").getD payload
    | _ => payload
  match raw with
  | .arr [] => .error (.notFoundError "Network not found")
  | .arr (x :: _) => Network.model_validate x
  | other => Network.model_validate other

/-- `Networks.list` — transport calls issued (the body performs exactly one
`self._client.get(f"{BASE_PATH}/networks")`). -/
def Networks.list_requests : List Request :=
  [⟨.get, BASE_PATH ++ "/networks", [], none⟩]

/-- `Networks.list` — response processing: validate the envelope and return
its `network` element list. -/
def Networks.list_parse (payload : Json) : Except PyErr (List NetworkModel) :=
  (ListNetworksResponse.model_validate payload).map (fun parsed => parsed.network)

/-- `Networks.get` — transport calls issued. -/
def Networks.get_requests (network_id : String) : List Request :=
  [⟨.get, BASE_PATH ++ "/network", [("network_id", network_id)], none⟩]

/-- `Networks.get` — response processing via `_parse_single_network`. -/
def Networks.get_parse (payload : Json) : Except PyErr Network :=
  parse_single_network payload

/-- `Networks.create` — transport calls issued (kwargs become the JSON
body). -/
def Networks.create_requests (kwargs : List (String × Json)) : List Request :=
  [⟨.post, BASE_PATH ++ "/network/create", [], some (.obj kwargs)⟩]

/-- `Networks.create` — response processing via `_parse_single_network`. -/
def Networks.create_parse (payload : Json) : Except PyErr Network :=
  parse_single_network payload

/-- `Networks.update` — transport calls issued: the JSON body is
`{**kwargs, "network_id": network_id}`. -/
def Networks.update_requests (network_id : String) (kwargs : List (String × Json)) :
    List Request :=
  [⟨.post, BASE_PATH ++ "/network/update", [],
    some (.obj (kwargs ++ [("network_id", .str network_id)]))⟩]

/-- `Networks.update` — response processing via `_parse_single_network`. -/
def Networks.update_parse (payload : Json) : Except PyErr Network :=
  parse_single_network payload

/-- `Networks.delete` — transport calls issued; the response body is
discarded (the method returns `None`). -/
def Networks.delete_requests (network_id : String) : List Request :=
  [⟨.post, BASE_PATH ++ "/network/delete", [],
    some (.obj [("network_id", .str network_id)])⟩]

/-- `AsyncNetworks.list` — transport calls issued by the asynchronous
variant (transcribed from its own body). -/
def AsyncNetworks.list_requests : List Request :=
  [⟨.get, BASE_PATH ++ "/networks", [], none⟩]

/-- `AsyncNetworks.list` — response processing of the asynchronous
variant. -/
def AsyncNetworks.list_parse (payload : Json) : Except PyErr (List NetworkModel) :=
  (ListNetworksResponse.model_validate payload).map (fun parsed => parsed.network)

/-- `AsyncNetworks.get` — transport calls issued. -/
def AsyncNetworks.get_requests (network_id : String) : List Request :=
  [⟨.get, BASE_PATH ++ "/network", [("network_id", network_id)], none⟩]

/-- `AsyncNetworks.get` — response processing. -/
def AsyncNetworks.get_parse (payload : Json) : Except PyErr Network :=
  parse_single_network payload

/-- `AsyncNetworks.create` — transport calls issued. -/
def AsyncNetworks.create_requests (kwargs : List (String × Json)) : List Request :=
  [⟨.post, BASE_PATH ++ "/network/create", [], some (.obj kwargs)⟩]

/-- `AsyncNetworks.create` — response processing. -/
def AsyncNetworks.create_parse (payload : Json) : Except PyErr Network :=
  parse_single_network payload

/-- `AsyncNetworks.update` — transport calls issued. -/
def AsyncNetworks.update_requests (network_id : String) (kwargs : List (String × Json)) :
    List Request :=
  [⟨.post, BASE_PATH ++ "/network/update", [],
    some (.obj (kwargs ++ [("network_id", .str network_id)]))⟩]

/-- `AsyncNetworks.update` — response processing. -/
def AsyncNetworks.update_parse (payload : Json) : Except PyErr Network :=
  parse_single_network payload

/-- `AsyncNetworks.delete` — transport calls issued. -/
def AsyncNetworks.delete_requests (network_id : String) : List Request :=
  [⟨.post, BASE_PATH ++ "/network/delete", [],
    some (.obj [("network_id", .str network_id)])⟩]

/-- Method-name surface of the `Networks` class, in declaration order. -/
def Networks.methodNames : List String :=
  ["list", "get", "create", "update", "delete"]

/-- Method-name surface of the `AsyncNetworks` class, in declaration
order. -/
def AsyncNetworks.methodNames : List String :=
  ["list", "get", "create", "update", "delete"]

/-! ## Instance models (`novita/models/gpu.py`) -/

/-- `CreateInstanceRequest` — request model for creating a GPU instance:
`name : str` (required), `instance_type : str | InstanceType` (required; the
enum is string-valued), `disk_size : int = 50` with bounds `ge=20, le=1000`,
`ssh_key : str | None = None`. -/
structure CreateInstanceRequest where
  name : String
  instance_type : String
  disk_size : Int
  ssh_key : Option String
deriving DecidableEq

/-- Constructing a `CreateInstanceRequest` from keyword arguments, as
pydantic does: required fields must be present with the right type, the
`disk_size` default is 50, its `ge=20`/`le=1000` bounds are checked, and
unrecognised keyword arguments are ignored (pydantic's default `extra`
policy). -/
def CreateInstanceRequest.validate (kwargs : List (String × Json)) :
    Except PyErr CreateInstanceRequest := do
  let nm ← Json.reqField kwargs "name" >>= Json.asStr
  let ty ← Json.reqField kwargs "instance_type" >>= Json.asStr
  let d ← match Json.lookup kwargs "disk_size" with
    | some v => v.asInt
    | none => .ok 50
  if d < 20 then
    .error (.validationError "disk_size: Input should be greater than or equal to 20")
  else if 1000 < d then
    .error (.validationError "disk_size: Input should be less than or equal to 1000")
  else do
    let key ← Json.optStr kwargs "ssh_key"
    .ok ⟨nm, ty, d, key⟩

/-- `CreateInstanceRequest.model_dump(exclude_none=True)` — serialization by
field name in declaration order, dropping absent optional fields (this is
the body `Instances.create` posts). -/
def CreateInstanceRequest.model_dump_exclude_none (r : CreateInstanceRequest) :
    List (String × Json) :=
  [("name", .str r.name), ("instance_type", .str r.instance_type),
   ("disk_size", .num r.disk_size)] ++
  (match r.ssh_key with
   | some s => [("ssh_key", .str s)]
   | none => [])

/-- `UpdateInstanceRequest` — request model for updating a GPU instance:
`name : str | None`, `disk_size : int | None` with bounds `ge=20,
le=1000`. -/
structure UpdateInstanceRequest where
  name : Option String
  disk_size : Option Int
deriving DecidableEq

/-- Constructing an `UpdateInstanceRequest` from keyword arguments: both
fields optional, the `disk_size` bounds checked when a value is given. -/
def UpdateInstanceRequest.validate (kwargs : List (String × Json)) :
    Except PyErr UpdateInstanceRequest := do
  let nm ← Json.optStr kwargs "name"
  let d ← Json.optInt kwargs "disk_size"
  match d with
  | some dv =>
    if dv < 20 then
      .error (.validationError "disk_size: Input should be greater than or equal to 20")
    else if 1000 < dv then
      .error (.validationError "disk_size: Input should be less than or equal to 1000")
    else
      .ok ⟨nm, some dv⟩
  | none => .ok ⟨nm, none⟩

/-- `UpdateInstanceRequest.model_dump(exclude_none=True)`. -/
def UpdateInstanceRequest.model_dump_exclude_none (r : UpdateInstanceRequest) :
    List (String × Json) :=
  (match r.name with
   | some s => [("name", .str s)]
   | none => []) ++
  (match r.disk_size with
   | some d => [("disk_size", .num d)]
   | none => [])

/-- `InstanceInfo` — response model for GPU instance information: six
required fields and three nullable optional fields. -/
structure InstanceInfo where
  instance_id : String
  name : String
  instance_type : String
  status : String
  disk_size : Int
  created_at : Int
  ssh_host : Option String
  ssh_port : Option Int
  jupyter_url : Option String
deriving DecidableEq

/-- `InstanceInfo.model_validate`. -/
def InstanceInfo.model_validate : Json → Except PyErr InstanceInfo
  | .obj fields => do
    let iid ← Json.reqField fields "instance_id" >>= Json.asStr
    let nm ← Json.reqField fields "name" >>= Json.asStr
    let ty ← Json.reqField fields "instance_type" >>= Json.asStr
    let st ← Json.reqField fields "status" >>= Json.asStr
    let dsk ← Json.reqField fields "disk_size" >>= Json.asInt
    let cat ← Json.reqField fields "created_at" >>= Json.asInt
    let sh ← Json.optStr fields "ssh_host"
    let sp ← Json.optInt fields "ssh_port"
    let ju ← Json.optStr fields "jupyter_url"
    .ok ⟨iid, nm, ty, st, dsk, cat, sh, sp, ju⟩
  | _ => .error (.validationError "Input should be a valid dictionary")

/-- Serialize an optional string the way pydantic `model_dump` does
(absent values become JSON null). -/
def optStrJson : Option String → Json
  | some s => .str s
  | none => .null

/-- Serialize an optional integer the way pydantic `model_dump` does. -/
def optIntJson : Option Int → Json
  | some n => .num n
  | none => .null

/-- `InstanceInfo.model_dump` — the caller-visible JSON shape of an
`InstanceInfo`, by field name in declaration order. -/
def InstanceInfo.model_dump (i : InstanceInfo) : Json :=
  .obj [("instance_id", .str i.instance_id), ("name", .str i.name),
        ("instance_type", .str i.instance_type), ("status", .str i.status),
        ("disk_size", .num i.disk_size), ("created_at", .num i.created_at),
        ("ssh_host", optStrJson i.ssh_host), ("ssh_port", optIntJson i.ssh_port),
        ("jupyter_url", optStrJson i.jupyter_url)]

/-- `CreateInstanceResponse` — response model for instance creation. -/
structure CreateInstanceResponse where
  instance_id : String
  status : String
deriving DecidableEq

/-- `CreateInstanceResponse.model_validate`. -/
def CreateInstanceResponse.model_validate : Json → Except PyErr CreateInstanceResponse
  | .obj fields => do
    let iid ← Json.reqField fields "instance_id" >>= Json.asStr
    let st ← Json.reqField fields "status" >>= Json.asStr
    .ok ⟨iid, st⟩
  | _ => .error (.validationError "Input should be a valid dictionary")

/-- `ListInstancesResponse` — the pagination envelope model returned by the
instance-list endpoint: the element list plus a `total` count. -/
structure ListInstancesResponse where
  instances : List InstanceInfo
  total : Int
deriving DecidableEq

/-- `ListInstancesResponse.model_validate`. -/
def ListInstancesResponse.model_validate : Json → Except PyErr ListInstancesResponse
  | .obj fields => do
    let insts ← match Json.reqField fields "instances" with
      | .ok (.arr elems) => validateAll InstanceInfo.model_validate elems
      | .ok _ => .error (.validationError "instances: Input should be a valid list")
      | .error e => .error e
    let tot ← Json.reqField fields "total" >>= Json.asInt
    .ok ⟨insts, tot⟩
  | _ => .error (.validationError "Input should be a valid dictionary")

/-- `ListInstancesResponse.model_dump` — the caller-visible JSON shape of
the value `Instances.list` returns: an object still carrying the envelope
keys `instances` and `total`. -/
def ListInstancesResponse.model_dump (r : ListInstancesResponse) : Json :=
  .obj [("instances", .arr (r.instances.map InstanceInfo.model_dump)),
        ("total", .num r.total)]

/-- `InstanceActionResponse` — response model for instance actions. -/
structure InstanceActionResponse where
  instance_id : String
  success : Bool
  message : Option String
deriving DecidableEq

/-- `InstanceActionResponse.model_validate`. -/
def InstanceActionResponse.model_validate : Json → Except PyErr InstanceActionResponse
  | .obj fields => do
    let iid ← Json.reqField fields "instance_id" >>= Json.asStr
    let ok ← Json.reqField fields "success" >>= Json.asBool
    let msg ← Json.optStr fields "message"
    .ok ⟨iid, ok, msg⟩
  | _ => .error (.validationError "Input should be a valid dictionary")

/-! ## The instances resource (`novita/api/resources/gpu/instances.py`) -/

/-- `Instances.create` — transport calls issued: one POST of the request
model serialized with `exclude_none=True`. -/
def Instances.create_requests (request : CreateInstanceRequest) : List Request :=
  [⟨.post, BASE_PATH ++ "/gpu/instance/create", [],
    some (.obj request.model_dump_exclude_none)⟩]

/-- `Instances.create` — response processing. -/
def Instances.create_parse (payload : Json) : Except PyErr CreateInstanceResponse :=
  CreateInstanceResponse.model_validate payload

/-- `Instances.list` — transport calls issued. -/
def Instances.list_requests : List Request :=
  [⟨.get, BASE_PATH ++ "/gpu/instances", [], none⟩]

/-- `Instances.list` — response processing: the validated
`ListInstancesResponse` envelope model is returned to the caller as-is. -/
def Instances.list_parse (payload : Json) : Except PyErr ListInstancesResponse :=
  ListInstancesResponse.model_validate payload

/-- `Instances.get` — transport calls issued. -/
def Instances.get_requests (instance_id : String) : List Request :=
  [⟨.get, BASE_PATH ++ "/gpu/instance", [("instance_id", instance_id)], none⟩]

/-- `Instances.get` — response processing. -/
def Instances.get_parse (payload : Json) : Except PyErr InstanceInfo :=
  InstanceInfo.model_validate payload

/-- `Instances.edit` — transport calls issued: the body is
`{"instance_id": instance_id, **request.model_dump(exclude_none=True)}`. -/
def Instances.edit_requests (instance_id : String) (request : UpdateInstanceRequest) :
    List Request :=
  [⟨.post, BASE_PATH ++ "/gpu/instance/edit", [],
    some (.obj (("instance_id", .str instance_id) :: request.model_dump_exclude_none))⟩]

/-- `Instances.edit` — response processing. -/
def Instances.edit_parse (payload : Json) : Except PyErr InstanceInfo :=
  InstanceInfo.model_validate payload

/-- `Instances.start` — transport calls issued. -/
def Instances.start_requests (instance_id : String) : List Request :=
  [⟨.post, BASE_PATH ++ "/gpu/instance/start", [],
    some (.obj [("instance_id", .str instance_id)])⟩]

/-- `Instances.start` — response processing. -/
def Instances.start_parse (payload : Json) : Except PyErr InstanceActionResponse :=
  InstanceActionResponse.model_validate payload

/-- `Instances.stop` — transport calls issued. -/
def Instances.stop_requests (instance_id : String) : List Request :=
  [⟨.post, BASE_PATH ++ "/gpu/instance/stop", [],
    some (.obj [("instance_id", .str instance_id)])⟩]

/-- `Instances.stop` — response processing. -/
def Instances.stop_parse (payload : Json) : Except PyErr InstanceActionResponse :=
  InstanceActionResponse.model_validate payload

/-- `Instances.delete` — transport calls issued. -/
def Instances.delete_requests (instance_id : String) : List Request :=
  [⟨.post, BASE_PATH ++ "/gpu/instance/delete", [],
    some (.obj [("instance_id", .str instance_id)])⟩]

/-- `Instances.delete` — response processing. -/
def Instances.delete_parse (payload : Json) : Except PyErr InstanceActionResponse :=
  InstanceActionResponse.model_validate payload

/-- `Instances.restart` — transport calls issued. -/
def Instances.restart_requests (instance_id : String) : List Request :=
  [⟨.post, BASE_PATH ++ "/gpu/instance/restart", [],
    some (.obj [("instance_id", .str instance_id)])⟩]

/-- `Instances.restart` — response processing. -/
def Instances.restart_parse (payload : Json) : Except PyErr InstanceActionResponse :=
  InstanceActionResponse.model_validate payload

/-- `Instances.upgrade` — transport calls issued. -/
def Instances.upgrade_requests (instance_id new_instance_type : String) : List Request :=
  [⟨.post, BASE_PATH ++ "/gpu/instance/upgrade", [],
    some (.obj [("instance_id", .str instance_id),
                ("instance_type", .str new_instance_type)])⟩]

/-- `Instances.upgrade` — response processing. -/
def Instances.upgrade_parse (payload : Json) : Except PyErr InstanceActionResponse :=
  InstanceActionResponse.model_validate payload

/-- `Instances.migrate` — transport calls issued. -/
def Instances.migrate_requests (instance_id target_region : String) : List Request :=
  [⟨.post, BASE_PATH ++ "/gpu/instance/migrate", [],
    some (.obj [("instance_id", .str instance_id),
                ("target_region", .str target_region)])⟩]

/-- `Instances.migrate` — response processing. -/
def Instances.migrate_parse (payload : Json) : Except PyErr InstanceActionResponse :=
  InstanceActionResponse.model_validate payload

/-- `Instances.renew` — transport calls issued. -/
def Instances.renew_requests (instance_id : String) (duration_hours : Int) : List Request :=
  [⟨.post, BASE_PATH ++ "/gpu/instance/renewInstance", [],
    some (.obj [("instance_id", .str instance_id),
                ("duration_hours", .num duration_hours)])⟩]

/-- `Instances.renew` — response processing. -/
def Instances.renew_parse (payload : Json) : Except PyErr InstanceActionResponse :=
  InstanceActionResponse.model_validate payload

/-- `Instances.convert_to_monthly` — transport calls issued. -/
def Instances.convert_to_monthly_requests (instance_id : String) : List Request :=
  [⟨.post, BASE_PATH ++ "/gpu/instance/transToMonthlyInstance", [],
    some (.obj [("instance_id", .str instance_id)])⟩]

/-- `Instances.convert_to_monthly` — response processing. -/
def Instances.convert_to_monthly_parse (payload : Json) :
    Except PyErr InstanceActionResponse :=
  InstanceActionResponse.model_validate payload

/-- Method-name surface of the `Instances` class, in declaration order. -/
def Instances.methodNames : List String :=
  ["create", "list", "get", "edit", "start", "stop", "delete", "restart",
   "upgrade", "migrate", "renew", "convert_to_monthly"]

/-! ## The asynchronous instances resource (`AsyncInstances`), transcribed
from its own method bodies (lines 257-492 of `instances.py`). -/

/-- `AsyncInstances.create` — transport calls issued. -/
def AsyncInstances.create_requests (request : CreateInstanceRequest) : List Request :=
  [⟨.post, BASE_PATH ++ "/gpu/instance/create", [],
    some (.obj request.model_dump_exclude_none)⟩]

/-- `AsyncInstances.create` — response processing. -/
def AsyncInstances.create_parse (payload : Json) : Except PyErr CreateInstanceResponse :=
  CreateInstanceResponse.model_validate payload

/-- `AsyncInstances.list` — transport calls issued. -/
def AsyncInstances.list_requests : List Request :=
  [⟨.get, BASE_PATH ++ "/gpu/instances", [], none⟩]

/-- `AsyncInstances.list` — response processing. -/
def AsyncInstances.list_parse (payload : Json) : Except PyErr ListInstancesResponse :=
  ListInstancesResponse.model_validate payload

/-- `AsyncInstances.get` — transport calls issued. -/
def AsyncInstances.get_requests (instance_id : String) : List Request :=
  [⟨.get, BASE_PATH ++ "/gpu/instance", [("instance_id", instance_id)], none⟩]

/-- `AsyncInstances.get` — response processing. -/
def AsyncInstances.get_parse (payload : Json) : Except PyErr InstanceInfo :=
  InstanceInfo.model_validate payload

/-- `AsyncInstances.edit` — transport calls issued. -/
def AsyncInstances.edit_requests (instance_id : String) (request : UpdateInstanceRequest) :
    List Request :=
  [⟨.post, BASE_PATH ++ "/gpu/instance/edit", [],
    some (.obj (("instance_id", .str instance_id) :: request.model_dump_exclude_none))⟩]

/-- `AsyncInstances.edit` — response processing. -/
def AsyncInstances.edit_parse (payload : Json) : Except PyErr InstanceInfo :=
  InstanceInfo.model_validate payload

/-- `AsyncInstances.start` — transport calls issued. -/
def AsyncInstances.start_requests (instance_id : String) : List Request :=
  [⟨.post, BASE_PATH ++ "/gpu/instance/start", [],
    some (.obj [("instance_id", .str instance_id)])⟩]

/-- `AsyncInstances.start` — response processing. -/
def AsyncInstances.start_parse (payload : Json) : Except PyErr InstanceActionResponse :=
  InstanceActionResponse.model_validate payload

/-- `AsyncInstances.stop` — transport calls issued. -/
def AsyncInstances.stop_requests (instance_id : String) : List Request :=
  [⟨.post, BASE_PATH ++ "/gpu/instance/stop", [],
    some (.obj [("instance_id", .str instance_id)])⟩]

/-- `AsyncInstances.stop` — response processing. -/
def AsyncInstances.stop_parse (payload : Json) : Except PyErr InstanceActionResponse :=
  InstanceActionResponse.model_validate payload

/-- `AsyncInstances.delete` — transport calls issued. -/
def AsyncInstances.delete_requests (instance_id : String) : List Request :=
  [⟨.post, BASE_PATH ++ "/gpu/instance/delete", [],
    some (.obj [("instance_id", .str instance_id)])⟩]

/-- `AsyncInstances.delete` — response processing. -/
def AsyncInstances.delete_parse (payload : Json) : Except PyErr InstanceActionResponse :=
  InstanceActionResponse.model_validate payload

/-- `AsyncInstances.restart` — transport calls issued. -/
def AsyncInstances.restart_requests (instance_id : String) : List Request :=
  [⟨.post, BASE_PATH ++ "/gpu/instance/restart", [],
    some (.obj [("instance_id", .str instance_id)])⟩]

/-- `AsyncInstances.restart` — response processing. -/
def AsyncInstances.restart_parse (payload : Json) : Except PyErr InstanceActionResponse :=
  InstanceActionResponse.model_validate payload

/-- `AsyncInstances.upgrade` — transport calls issued. -/
def AsyncInstances.upgrade_requests (instance_id new_instance_type : String) : List Request :=
  [⟨.post, BASE_PATH ++ "/gpu/instance/upgrade", [],
    some (.obj [("instance_id", .str instance_id),
                ("instance_type", .str new_instance_type)])⟩]

/-- `AsyncInstances.upgrade` — response processing. -/
def AsyncInstances.upgrade_parse (payload : Json) : Except PyErr InstanceActionResponse :=
  InstanceActionResponse.model_validate payload

/-- `AsyncInstances.migrate` — transport calls issued. -/
def AsyncInstances.migrate_requests (instance_id target_region : String) : List Request :=
  [⟨.post, BASE_PATH ++ "/gpu/instance/migrate", [],
    some (.obj [("instance_id", .str instance_id),
                ("target_region", .str target_region)])⟩]

/-- `AsyncInstances.migrate` — response processing. -/
def AsyncInstances.migrate_parse (payload : Json) : Except PyErr InstanceActionResponse :=
  InstanceActionResponse.model_validate payload

/-- `AsyncInstances.renew` — transport calls issued. -/
def AsyncInstances.renew_requests (instance_id : String) (duration_hours : Int) :
    List Request :=
  [⟨.post, BASE_PATH ++ "/gpu/instance/renewInstance", [],
    some (.obj [("instance_id", .str instance_id),
                ("duration_hours", .num duration_hours)])⟩]

/-- `AsyncInstances.renew` — response processing. -/
def AsyncInstances.renew_parse (payload : Json) : Except PyErr InstanceActionResponse :=
  InstanceActionResponse.model_validate payload

/-- `AsyncInstances.convert_to_monthly` — transport calls issued. -/
def AsyncInstances.convert_to_monthly_requests (instance_id : String) : List Request :=
  [⟨.post, BASE_PATH ++ "/gpu/instance/transToMonthlyInstance", [],
    some (.obj [("instance_id", .str instance_id)])⟩]

/-- `AsyncInstances.convert_to_monthly` — response processing. -/
def AsyncInstances.convert_to_monthly_parse (payload : Json) :
    Except PyErr InstanceActionResponse :=
  InstanceActionResponse.model_validate payload

/-- Method-name surface of the `AsyncInstances` class, in declaration
order. -/
def AsyncInstances.methodNames : List String :=
  ["create", "list", "get", "edit", "start", "stop", "delete", "restart",
   "upgrade", "migrate", "renew", "convert_to_monthly"]

/-! ## Product models with price-derived fields

The generated product models (`novita/generated/models.py`) are not under
the provided sources; what is under the sources is
`scripts/apply_price_conversions.py`, the script that rewrites them.  The
structures below embed the models exactly as that script leaves them: each
wire `price` field is renamed to `price_raw` with a wire alias, and a
computed read-only property divides the raw integer unit (1/100000 USD) by
the fixed scale factor 100000.  Nullability follows the script's emitted
return annotations: `GPUProduct.spot_price` and `CPUProduct.price` guard a
possibly-absent raw value (`... if ... is not None else None`), while
`GPUProduct.price` and `SubscriptionPrice.price` divide a raw value that is
always present (return annotation `float`).  Exact currency values are
modelled with `Rat`. -/

/-- `SubscriptionPrice` after `apply_price_conversions`: `price_raw : int`
(wire alias `price`) plus `month`. -/
structure SubscriptionPrice where
  price_raw : Int
  month : Int
deriving DecidableEq

/-- The computed `SubscriptionPrice.price` property:
`self.price_raw / 100000`. -/
def SubscriptionPrice.price (p : SubscriptionPrice) : Rat :=
  (p.price_raw : Rat) / 100000

/-- `GPUProduct` after `apply_price_conversions`: the price-carrying fields
`price_raw : int` (wire alias `price`) and `spot_price_raw : int | None`
(wire alias `spotPrice`), together with `id` and `name`; the remaining
generated fields are carried opaquely in `extra` since the generated file
is external code-generation input. -/
structure GPUProduct where
  id : String
  name : String
  price_raw : Int
  spot_price_raw : Option Int
  extra : List (String × Json)

/-- The computed `GPUProduct.price` property: `self.price_raw / 100000`. -/
def GPUProduct.price (p : GPUProduct) : Rat :=
  (p.price_raw : Rat) / 100000

/-- The computed `GPUProduct.spot_price` property:
`self.spot_price_raw / 100000 if self.spot_price_raw is not None else
None`. -/
def GPUProduct.spot_price (p : GPUProduct) : Option Rat :=
  match p.spot_price_raw with
  | some r => some ((r : Rat) / 100000)
  | none => none

/-- `GPUProduct.model_validate`: an object payload is required; the raw
price is read from the wire alias `price` and the raw spot price from
`spotPrice` (the API sends it as a decimal string, which pydantic laxly
coerces). -/
def GPUProduct.model_validate : Json → Except PyErr GPUProduct
  | .obj fields => do
    let pid ← Json.reqField fields "id" >>= Json.asStr
    let nm ← Json.reqField fields "name" >>= Json.asStr
    let pr ← Json.reqField fields "price" >>= Json.asIntLax
    let sp ← Json.optIntLax fields "spotPrice"
    .ok ⟨pid, nm, pr, sp, fields⟩
  | _ => .error (.validationError "Input should be a valid dictionary")

/-- `CPUProduct` after `apply_price_conversions`: `price_raw : int | None`
(wire alias `price`); remaining generated fields carried opaquely. -/
structure CPUProduct where
  id : String
  name : String
  price_raw : Option Int
  extra : List (String × Json)

/-- The computed `CPUProduct.price` property: `self.price_raw / 100000 if
self.price_raw is not None else None`. -/
def CPUProduct.price (p : CPUProduct) : Option Rat :=
  match p.price_raw with
  | some r => some ((r : Rat) / 100000)
  | none => none

/-- `CPUProduct.model_validate`. -/
def CPUProduct.model_validate : Json → Except PyErr CPUProduct
  | .obj fields => do
    let pid ← Json.reqField fields "id" >>= Json.asStr
    let nm ← Json.reqField fields "name" >>= Json.asStr
    let pr ← Json.optIntLax fields "price"
    .ok ⟨pid, nm, pr, fields⟩
  | _ => .error (.validationError "Input should be a valid dictionary")

/-- `ListGPUProductsResponse.model_validate`: the list envelope with key
`data`. -/
def ListGPUProductsResponse.model_validate (payload : Json) :
    Except PyErr (List GPUProduct) :=
  match payload with
  | .obj fields =>
    match Json.lookup fields "data" with
    | some (.arr elems) => validateAll GPUProduct.model_validate elems
    | _ => .error (.validationError "data: Field required")
  | _ => .error (.validationError "Input should be a valid dictionary")

/-- `ListCPUProductsResponse.model_validate`. -/
def ListCPUProductsResponse.model_validate (payload : Json) :
    Except PyErr (List CPUProduct) :=
  match payload with
  | .obj fields =>
    match Json.lookup fields "data" with
    | some (.arr elems) => validateAll CPUProduct.model_validate elems
    | _ => .error (.validationError "data: Field required")
  | _ => .error (.validationError "Input should be a valid dictionary")

/-! ## The products resource (`novita/api/resources/gpu/products.py`) -/

/-- `Products.list` — transport calls issued. -/
def Products.list_requests : List Request :=
  [⟨.get, BASE_PATH ++ "/products", [], none⟩]

/-- `Products.list` — response processing: validate the envelope and
return its `data` element list. -/
def Products.list_parse (payload : Json) : Except PyErr (List GPUProduct) :=
  ListGPUProductsResponse.model_validate payload

/-- `Products.list_cpu` — transport calls issued. -/
def Products.list_cpu_requests : List Request :=
  [⟨.get, BASE_PATH ++ "/cpu/products", [], none⟩]

/-- `Products.list_cpu` — response processing. -/
def Products.list_cpu_parse (payload : Json) : Except PyErr (List CPUProduct) :=
  ListCPUProductsResponse.model_validate payload

/-- `AsyncProducts.list` — transport calls issued. -/
def AsyncProducts.list_requests : List Request :=
  [⟨.get, BASE_PATH ++ "/products", [], none⟩]

/-- `AsyncProducts.list` — response processing. -/
def AsyncProducts.list_parse (payload : Json) : Except PyErr (List GPUProduct) :=
  ListGPUProductsResponse.model_validate payload

/-- `AsyncProducts.list_cpu` — transport calls issued. -/
def AsyncProducts.list_cpu_requests : List Request :=
  [⟨.get, BASE_PATH ++ "/cpu/products", [], none⟩]

/-- `AsyncProducts.list_cpu` — response processing. -/
def AsyncProducts.list_cpu_parse (payload : Json) : Except PyErr (List CPUProduct) :=
  ListCPUProductsResponse.model_validate payload

/-- Method-name surface of the `Products` class, in declaration order. -/
def Products.methodNames : List String := ["list", "list_cpu"]

/-- Method-name surface of the `AsyncProducts` class. -/
def AsyncProducts.methodNames : List String := ["list", "list_cpu"]

/-! ## SSH-endpoint extraction

The spec names SSH-endpoint extraction (parsing command strings,
normalizing `scheme://host:port` variants, falling back between multiple
data sources) as part of the instances resource; the method body
(`Instances.get_ssh_endpoint` with helpers `_parse_ssh_command` and
`_normalize_endpoint`) is not under the provided sources, only its tests
are, so the definitions below are modelled from the spec. -/

/-- An extracted SSH connection endpoint. -/
structure SSHEndpoint where
  user : String
  host : String
  port : Int
  command : String
deriving DecidableEq

/-- A port-mapping entry of the instance metadata: the in-container port
and the externally reachable endpoint string. -/
structure PortMapping where
  port : Int
  endpoint : String
deriving DecidableEq

/-- The explicit SSH connect component of the instance metadata: a user
name and a ready-made `ssh` command string. -/
structure ConnectComponentSSH where
  user : String
  command : String
deriving DecidableEq

/-- Split a character list at every occurrence of a separator character
(the spec-modelled SSH helpers below work on a string's character list so
that every definition is executable by kernel reduction). -/
def splitOnChar (c : Char) : List Char → List (List Char)
  | [] => [[]]
  | x :: xs =>
    match splitOnChar c xs with
    | r :: rs => if x = c then [] :: r :: rs else (x :: r) :: rs
    | [] => [[x]]

/-- Parse a non-empty all-digit character list into a natural number. -/
def charsToNat? (cs : List Char) : Option Nat :=
  match cs with
  | [] => none
  | _ =>
    cs.foldl (fun acc c =>
      match acc with
      | some n => if c.isDigit then some (n * 10 + (c.toNat - 48)) else none
      | none => none) (some 0)

/-- The character list following the first `://` of a character list, when
one occurs. -/
def afterSchemeAux : List Char → Option (List Char)
  | ':' :: '/' :: '/' :: rest => some rest
  | _ :: xs => afterSchemeAux xs
  | [] => none

/-- Modelled from the spec: strip a leading `scheme://` from an endpoint
string (`tcp://host:port` and `http://host:port` variants normalize to
`host:port`). -/
def stripScheme (s : String) : String :=
  match afterSchemeAux s.data with
  | some rest => ⟨rest⟩
  | none => s

/-- Split a character list at its last colon: the part before it and, when
a colon occurs at all, the part after it. -/
def splitLastColon : List Char → List Char × Option (List Char)
  | [] => ([], none)
  | x :: xs =>
    match splitLastColon xs with
    | (h, some p) => (x :: h, some p)
    | (h, none) => if x = ':' then ([], some xs) else (x :: h, none)

/-- Modelled from the spec: `_normalize_endpoint` — normalize an endpoint
string of any `scheme://host:port` variant into a host and an optional
port, splitting the numeric port off at the last colon. -/
def normalize_endpoint (s : String) : String × Option Int :=
  match splitLastColon (stripScheme s).data with
  | (h, some p) =>
    match charsToNat? p with
    | some n => (⟨h⟩, some (n : Int))
    | none => (⟨h⟩, none)
  | (h, none) => (⟨h⟩, none)

/-- Modelled from the spec: the `-p <port>` (or `-p=<port>`) flag of a
tokenized `ssh` command. -/
def findPortFlag : List (List Char) → Option Int
  | [] => none
  | t :: rest =>
    match t with
    | ['-', 'p'] =>
      match rest with
      | v :: _ => (charsToNat? v).map (fun n => (n : Int))
      | [] => none
    | '-' :: 'p' :: '=' :: v => (charsToNat? v).map (fun n => (n : Int))
    | _ => findPortFlag rest

/-- Modelled from the spec: `_parse_ssh_command` — parse an SSH command
string such as `ssh user@host -p port`, extracting the user and host from
the `user@host` token and the optional port from the `-p` flag. -/
def parse_ssh_command (cmd : String) :
    Option String × Option String × Option Int :=
  let toks := splitOnChar ' ' cmd.data
  let uh :=
    match toks.find? (fun t => t.contains '@') with
    | some t =>
      match splitOnChar '@' t with
      | [u, h] => (some (⟨u⟩ : String), some (⟨h⟩ : String))
      | _ => (none, none)
    | none => (none, none)
  (uh.1, uh.2, findPortFlag toks)

/-- Modelled from the spec: `Instances.get_ssh_endpoint`'s extraction of an
SSH endpoint from heterogeneous instance metadata.  The explicit SSH
connect component is preferred and its command string parsed; with no
explicit SSH command the extraction falls back to the port-mapping entry
for port 22, normalizes its endpoint string, and defaults the user to
`root` and the port to 22; with no candidate at all it raises
`NotFoundError("No SSH endpoint found")`. -/
def get_ssh_endpoint (component : Option ConnectComponentSSH)
    (portMappings : List PortMapping) : Except PyErr SSHEndpoint :=
  match component with
  | some c =>
    let parsed := parse_ssh_command c.command
    let host := (parsed.2.1).getD ""
    let port := (parsed.2.2).getD 22
    .ok ⟨c.user, host, port, c.command⟩
  | none =>
    match portMappings.find? (fun m => m.port == 22) with
    | some m =>
      let hp := normalize_endpoint m.endpoint
      let port := (hp.2).getD 22
      .ok ⟨"root", hp.1, port, "ssh root@" ++ hp.1⟩
    | none => .error (.notFoundError "No SSH endpoint found")

/-! ## The remaining facade resources

The facade client (`api/gpu.py`) exposes eleven resources; the transport
calls of every method of the remaining eight resources are transcribed
below, sync and async, from `clusters.py`, `endpoints.py`, `images.py`,
`jobs.py`, `metrics.py`, `registries.py`, `storages.py` and
`templates.py`. -/

/-- `Clusters.list` — transport calls issued. -/
def Clusters.list_requests : List Request :=
  [⟨.get, BASE_PATH ++ "/clusters", [], none⟩]

/-- `AsyncClusters.list` — transport calls issued. -/
def AsyncClusters.list_requests : List Request :=
  [⟨.get, BASE_PATH ++ "/clusters", [], none⟩]

/-- `Endpoints.get_limit_ranges` — transport calls issued. -/
def Endpoints.get_limit_ranges_requests : List Request :=
  [⟨.get, BASE_PATH ++ "/endpoint/limit", [], none⟩]

/-- `Endpoints.create` — transport calls issued. -/
def Endpoints.create_requests (kwargs : List (String × Json)) : List Request :=
  [⟨.post, BASE_PATH ++ "/endpoint/create", [], some (.obj kwargs)⟩]

/-- `Endpoints.list` — transport calls issued. -/
def Endpoints.list_requests : List Request :=
  [⟨.get, BASE_PATH ++ "/endpoints", [], none⟩]

/-- `Endpoints.get` — transport calls issued. -/
def Endpoints.get_requests (endpoint_id : String) : List Request :=
  [⟨.get, BASE_PATH ++ "/endpoint", [("endpoint_id", endpoint_id)], none⟩]

/-- `Endpoints.update` — transport calls issued: the body is
`{"endpoint_id": endpoint_id, **kwargs}`. -/
def Endpoints.update_requests (endpoint_id : String) (kwargs : List (String × Json)) :
    List Request :=
  [⟨.post, BASE_PATH ++ "/endpoint/update", [],
    some (.obj (("endpoint_id", .str endpoint_id) :: kwargs))⟩]

/-- `Endpoints.delete` — transport calls issued. -/
def Endpoints.delete_requests (endpoint_id : String) : List Request :=
  [⟨.post, BASE_PATH ++ "/endpoint/delete", [],
    some (.obj [("endpoint_id", .str endpoint_id)])⟩]

/-- `AsyncEndpoints.get_limit_ranges` — transport calls issued. -/
def AsyncEndpoints.get_limit_ranges_requests : List Request :=
  [⟨.get, BASE_PATH ++ "/endpoint/limit", [], none⟩]

/-- `AsyncEndpoints.create` — transport calls issued. -/
def AsyncEndpoints.create_requests (kwargs : List (String × Json)) : List Request :=
  [⟨.post, BASE_PATH ++ "/endpoint/create", [], some (.obj kwargs)⟩]

/-- `AsyncEndpoints.list` — transport calls issued. -/
def AsyncEndpoints.list_requests : List Request :=
  [⟨.get, BASE_PATH ++ "/endpoints", [], none⟩]

/-- `AsyncEndpoints.get` — transport calls issued. -/
def AsyncEndpoints.get_requests (endpoint_id : String) : List Request :=
  [⟨.get, BASE_PATH ++ "/endpoint", [("endpoint_id", endpoint_id)], none⟩]

/-- `AsyncEndpoints.update` — transport calls issued. -/
def AsyncEndpoints.update_requests (endpoint_id : String)
    (kwargs : List (String × Json)) : List Request :=
  [⟨.post, BASE_PATH ++ "/endpoint/update", [],
    some (.obj (("endpoint_id", .str endpoint_id) :: kwargs))⟩]

/-- `AsyncEndpoints.delete` — transport calls issued. -/
def AsyncEndpoints.delete_requests (endpoint_id : String) : List Request :=
  [⟨.post, BASE_PATH ++ "/endpoint/delete", [],
    some (.obj [("endpoint_id", .str endpoint_id)])⟩]

/-- `Images.list` — transport calls issued. -/
def Images.list_requests : List Request :=
  [⟨.get, BASE_PATH ++ "/image/prewarm", [], none⟩]

/-- `Images.create` — transport calls issued. -/
def Images.create_requests (kwargs : List (String × Json)) : List Request :=
  [⟨.post, BASE_PATH ++ "/image/prewarm", [], some (.obj kwargs)⟩]

/-- `Images.update` — transport calls issued: the body is
`{"task_id": task_id, **kwargs}`. -/
def Images.update_requests (task_id : String) (kwargs : List (String × Json)) :
    List Request :=
  [⟨.post, BASE_PATH ++ "/image/prewarm/edit", [],
    some (.obj (("task_id", .str task_id) :: kwargs))⟩]

/-- `Images.delete` — transport calls issued. -/
def Images.delete_requests (task_id : String) : List Request :=
  [⟨.post, BASE_PATH ++ "/image/prewarm/delete", [],
    some (.obj [("task_id", .str task_id)])⟩]

/-- `Images.get_quota` — transport calls issued. -/
def Images.get_quota_requests : List Request :=
  [⟨.get, BASE_PATH ++ "/image/prewarm/quota", [], none⟩]

/-- `AsyncImages.list` — transport calls issued. -/
def AsyncImages.list_requests : List Request :=
  [⟨.get, BASE_PATH ++ "/image/prewarm", [], none⟩]

/-- `AsyncImages.create` — transport calls issued. -/
def AsyncImages.create_requests (kwargs : List (String × Json)) : List Request :=
  [⟨.post, BASE_PATH ++ "/image/prewarm", [], some (.obj kwargs)⟩]

/-- `AsyncImages.update` — transport calls issued. -/
def AsyncImages.update_requests (task_id : String) (kwargs : List (String × Json)) :
    List Request :=
  [⟨.post, BASE_PATH ++ "/image/prewarm/edit", [],
    some (.obj (("task_id", .str task_id) :: kwargs))⟩]

/-- `AsyncImages.delete` — transport calls issued. -/
def AsyncImages.delete_requests (task_id : String) : List Request :=
  [⟨.post, BASE_PATH ++ "/image/prewarm/delete", [],
    some (.obj [("task_id", .str task_id)])⟩]

/-- `AsyncImages.get_quota` — transport calls issued. -/
def AsyncImages.get_quota_requests : List Request :=
  [⟨.get, BASE_PATH ++ "/image/prewarm/quota", [], none⟩]

/-- `Jobs.list` — transport calls issued. -/
def Jobs.list_requests : List Request :=
  [⟨.get, BASE_PATH ++ "/jobs", [], none⟩]

/-- `Jobs.break_job` — transport calls issued. -/
def Jobs.break_job_requests (job_id : String) : List Request :=
  [⟨.post, BASE_PATH ++ "/job/break", [], some (.obj [("job_id", .str job_id)])⟩]

/-- `AsyncJobs.list` — transport calls issued. -/
def AsyncJobs.list_requests : List Request :=
  [⟨.get, BASE_PATH ++ "/jobs", [], none⟩]

/-- `AsyncJobs.break_job` — transport calls issued. -/
def AsyncJobs.break_job_requests (job_id : String) : List Request :=
  [⟨.post, BASE_PATH ++ "/job/break", [], some (.obj [("job_id", .str job_id)])⟩]

/-- `Metrics.list` — transport calls issued: none.  The body is an
unimplemented stub: it raises
`NotImplementedError("Metrics API endpoints not yet specified")` before
any transport interaction (`metrics.py:14-24`). -/
def Metrics.list_requests : List Request := []

/-- `Metrics.list` — the result the caller observes: always the raised
`NotImplementedError`; no response is ever parsed. -/
def Metrics.list_run : Except PyErr Json :=
  .error (.notImplementedError "Metrics API endpoints not yet specified")

/-- `AsyncMetrics.list` — transport calls issued: none
(`metrics.py:30-40`). -/
def AsyncMetrics.list_requests : List Request := []

/-- `AsyncMetrics.list` — the result the caller observes: always the
raised `NotImplementedError`. -/
def AsyncMetrics.list_run : Except PyErr Json :=
  .error (.notImplementedError "Metrics API endpoints not yet specified")

/-- `Registries.list` — transport calls issued. -/
def Registries.list_requests : List Request :=
  [⟨.get, BASE_PATH ++ "/repository/auths", [], none⟩]

/-- `Registries.create` — transport calls issued. -/
def Registries.create_requests (kwargs : List (String × Json)) : List Request :=
  [⟨.post, BASE_PATH ++ "/repository/auth/save", [], some (.obj kwargs)⟩]

/-- `Registries.delete` — transport calls issued. -/
def Registries.delete_requests (auth_id : String) : List Request :=
  [⟨.post, BASE_PATH ++ "/repository/auth/delete", [],
    some (.obj [("auth_id", .str auth_id)])⟩]

/-- `AsyncRegistries.list` — transport calls issued. -/
def AsyncRegistries.list_requests : List Request :=
  [⟨.get, BASE_PATH ++ "/repository/auths", [], none⟩]

/-- `AsyncRegistries.create` — transport calls issued. -/
def AsyncRegistries.create_requests (kwargs : List (String × Json)) : List Request :=
  [⟨.post, BASE_PATH ++ "/repository/auth/save", [], some (.obj kwargs)⟩]

/-- `AsyncRegistries.delete` — transport calls issued. -/
def AsyncRegistries.delete_requests (auth_id : String) : List Request :=
  [⟨.post, BASE_PATH ++ "/repository/auth/delete", [],
    some (.obj [("auth_id", .str auth_id)])⟩]

/-- `Storages.list` — transport calls issued. -/
def Storages.list_requests : List Request :=
  [⟨.get, BASE_PATH ++ "/networkstorages/list", [], none⟩]

/-- `Storages.create` — transport calls issued. -/
def Storages.create_requests (kwargs : List (String × Json)) : List Request :=
  [⟨.post, BASE_PATH ++ "/networkstorage/create", [], some (.obj kwargs)⟩]

/-- `Storages.update` — transport calls issued: the body is
`{"storage_id": storage_id, **kwargs}`. -/
def Storages.update_requests (storage_id : String) (kwargs : List (String × Json)) :
    List Request :=
  [⟨.post, BASE_PATH ++ "/networkstorage/update", [],
    some (.obj (("storage_id", .str storage_id) :: kwargs))⟩]

/-- `Storages.delete` — transport calls issued. -/
def Storages.delete_requests (storage_id : String) : List Request :=
  [⟨.post, BASE_PATH ++ "/networkstorage/delete", [],
    some (.obj [("storage_id", .str storage_id)])⟩]

/-- `AsyncStorages.list` — transport calls issued. -/
def AsyncStorages.list_requests : List Request :=
  [⟨.get, BASE_PATH ++ "/networkstorages/list", [], none⟩]

/-- `AsyncStorages.create` — transport calls issued. -/
def AsyncStorages.create_requests (kwargs : List (String × Json)) : List Request :=
  [⟨.post, BASE_PATH ++ "/networkstorage/create", [], some (.obj kwargs)⟩]

/-- `AsyncStorages.update` — transport calls issued. -/
def AsyncStorages.update_requests (storage_id : String)
    (kwargs : List (String × Json)) : List Request :=
  [⟨.post, BASE_PATH ++ "/networkstorage/update", [],
    some (.obj (("storage_id", .str storage_id) :: kwargs))⟩]

/-- `AsyncStorages.delete` — transport calls issued. -/
def AsyncStorages.delete_requests (storage_id : String) : List Request :=
  [⟨.post, BASE_PATH ++ "/networkstorage/delete", [],
    some (.obj [("storage_id", .str storage_id)])⟩]

/-- `Templates.list` — transport calls issued. -/
def Templates.list_requests : List Request :=
  [⟨.get, BASE_PATH ++ "/templates", [], none⟩]

/-- `Templates.get` — transport calls issued (the query key is the
camelCase `templateId`). -/
def Templates.get_requests (template_id : String) : List Request :=
  [⟨.get, BASE_PATH ++ "/template", [("templateId", template_id)], none⟩]

/-- `Templates.create` — transport calls issued. -/
def Templates.create_requests (kwargs : List (String × Json)) : List Request :=
  [⟨.post, BASE_PATH ++ "/template/create", [], some (.obj kwargs)⟩]

/-- `Templates.delete` — transport calls issued. -/
def Templates.delete_requests (template_id : String) : List Request :=
  [⟨.post, BASE_PATH ++ "/template/delete", [],
    some (.obj [("templateId", .str template_id)])⟩]

/-- `AsyncTemplates.list` — transport calls issued. -/
def AsyncTemplates.list_requests : List Request :=
  [⟨.get, BASE_PATH ++ "/templates", [], none⟩]

/-- `AsyncTemplates.get` — transport calls issued. -/
def AsyncTemplates.get_requests (template_id : String) : List Request :=
  [⟨.get, BASE_PATH ++ "/template", [("templateId", template_id)], none⟩]

/-- `AsyncTemplates.create` — transport calls issued. -/
def AsyncTemplates.create_requests (kwargs : List (String × Json)) : List Request :=
  [⟨.post, BASE_PATH ++ "/template/create", [], some (.obj kwargs)⟩]

/-- `AsyncTemplates.delete` — transport calls issued. -/
def AsyncTemplates.delete_requests (template_id : String) : List Request :=
  [⟨.post, BASE_PATH ++ "/template/delete", [],
    some (.obj [("templateId", .str template_id)])⟩]

/-! ## Theorems -/

/-- C2: For the single-network lookup operations (`Networks.get`, and
likewise `Networks.create`/`Networks.update`, which share
`_parse_single_network`, sync and async): when the server payload encodes
the network as a list, an empty list is normalized into a raised
`NotFoundError` at the resource-client boundary — never returned as a
silent empty result — and a non-empty payload yields a parsed `Network`
value without error. -/
theorem network_empty_list_is_not_found :
    (Networks.get_parse (.arr []) = .error (.notFoundError "Network not found")) ∧
    (∀ fields, Json.lookup fields "network" = some (.arr []) →
      Networks.get_parse (.obj fields) = .error (.notFoundError "Network not found")) ∧
    (∀ f rest, Networks.get_parse (.arr (.obj f :: rest)) = .ok ⟨f⟩) ∧
    (∀ f rest fields, Json.lookup fields "network" = some (.arr (.obj f :: rest)) →
      Networks.get_parse (.obj fields) = .ok ⟨f⟩) ∧
    (∀ p, Networks.create_parse p = Networks.get_parse p ∧
          Networks.update_parse p = Networks.get_parse p ∧
          AsyncNetworks.get_parse p = Networks.get_parse p ∧
          AsyncNetworks.create_parse p = Networks.get_parse p ∧
          AsyncNetworks.update_parse p = Networks.get_parse p) := by
  refine ⟨rfl, ?_, ?_, ?_, ?_⟩
  · intro fields h
    simp [Networks.get_parse, parse_single_network, h]
  · intro f rest
    simp [Networks.get_parse, parse_single_network, Network.model_validate]
  · intro f rest fields h
    simp [Networks.get_parse, parse_single_network, h, Network.model_validate]
  · intro p
    exact ⟨rfl, rfl, rfl, rfl, rfl⟩

/-- Witness for `network_empty_list_is_not_found` at concrete payloads:
the envelope `{"network": []}` raises `NotFoundError`, and the envelope
`{"network": [{"id": "net-123"}]}` parses the first element. -/
theorem network_empty_list_is_not_found_witness :
    Networks.get_parse (.obj [("network", .arr [])]) =
      .error (.notFoundError "Network not found") ∧
    Networks.get_parse (.obj [("network", .arr [.obj [("id", .str "net-123")]])]) =
      .ok ⟨[("id", .str "net-123")]⟩ :=
  ⟨network_empty_list_is_not_found.2.1 [("network", .arr [])] rfl,
   network_empty_list_is_not_found.2.2.2.1 [("id", .str "net-123")] []
     [("network", .arr [.obj [("id", .str "net-123")]])] rfl⟩

/-- C10: `_parse_single_network` is total over heterogeneous payload shapes
with a fixed precedence — a dict payload is first unwrapped at its
`network` key when present, otherwise the dict itself is parsed; when the
(possibly unwrapped) value is a list with at least one element exactly the
first element is parsed and any further elements are silently ignored; so
every non-empty list payload makes get/create/update return the parsed
first element. -/
theorem parse_single_network_precedence :
    (∀ fields, Json.lookup fields "network" = none →
      parse_single_network (.obj fields) = Network.model_validate (.obj fields)) ∧
    (∀ fields f, Json.lookup fields "network" = some (.obj f) →
      parse_single_network (.obj fields) = Network.model_validate (.obj f)) ∧
    (∀ fields x rest, Json.lookup fields "network" = some (.arr (x :: rest)) →
      parse_single_network (.obj fields) = Network.model_validate x) ∧
    (∀ x rest, parse_single_network (.arr (x :: rest)) = Network.model_validate x) ∧
    (∀ x rest rest', parse_single_network (.arr (x :: rest)) =
      parse_single_network (.arr (x :: rest'))) ∧
    (∀ x rest,
      Networks.get_parse (.arr (x :: rest)) = Network.model_validate x ∧
      Networks.create_parse (.arr (x :: rest)) = Network.model_validate x ∧
      Networks.update_parse (.arr (x :: rest)) = Network.model_validate x) := by
  refine ⟨?_, ?_, ?_, ?_, ?_, ?_⟩
  · intro fields h
    simp only [parse_single_network, h, Option.getD]
  · intro fields f h
    simp [parse_single_network, h]
  · intro fields x rest h
    simp [parse_single_network, h]
  · intro x rest
    rfl
  · intro x rest rest'
    rfl
  · intro x rest
    exact ⟨rfl, rfl, rfl⟩

/-- Witness for `parse_single_network_precedence` at concrete payloads
covering each unwrapping hypothesis. -/
theorem parse_single_network_precedence_witness :
    parse_single_network (.obj [("id", .str "n")]) = .ok ⟨[("id", .str "n")]⟩ ∧
    parse_single_network (.obj [("network", .obj [("id", .str "n")])]) =
      .ok ⟨[("id", .str "n")]⟩ ∧
    parse_single_network
      (.obj [("network", .arr [.obj [("id", .str "a")], .obj [("id", .str "b")]])]) =
      .ok ⟨[("id", .str "a")]⟩ :=
  ⟨by rw [parse_single_network_precedence.1 [("id", .str "n")] rfl]; rfl,
   by rw [parse_single_network_precedence.2.1 [("network", .obj [("id", .str "n")])]
       [("id", .str "n")] rfl]; rfl,
   by rw [parse_single_network_precedence.2.2.1
       [("network", .arr [.obj [("id", .str "a")], .obj [("id", .str "b")]])]
       (.obj [("id", .str "a")]) [.obj [("id", .str "b")]] rfl]; rfl⟩

/-- Successful element-wise validation preserves the element count. -/
theorem validateAll_ok_length {α : Type} (f : Json → Except PyErr α) :
    ∀ (xs : List Json) (ys : List α), validateAll f xs = .ok ys → ys.length = xs.length := by
  intro xs
  induction xs with
  | nil =>
    intro ys h
    simp only [validateAll] at h
    cases h
    rfl
  | cons x xs ih =>
    intro ys h
    simp only [validateAll] at h
    cases hx : f x with
    | error e => rw [hx] at h; cases h
    | ok y =>
      rw [hx] at h
      cases hxs : validateAll f xs with
      | error e => rw [hxs] at h; cases h
      | ok ys' =>
        rw [hxs] at h
        cases h
        simp [ih ys' hxs]

/-- C3: every price-derived product field divides the raw integer unit by
the fixed scale factor 100000 (raw 350000 yields 3.50), and for the
price-derived fields whose raw value can be absent
(`GPUProduct.spot_price`, `CPUProduct.price`) an absent raw value
propagates as an absent derived value — the derived view is a total
function, never a division or type error.  `GPUProduct.price` and
`SubscriptionPrice.price` divide raw values that the models always carry
(the conversion script annotates them as non-optional `float`). -/
theorem price_derived_fields :
    (∀ p : GPUProduct, p.price = (p.price_raw : Rat) / 100000) ∧
    (∀ p : GPUProduct, p.spot_price = p.spot_price_raw.map (fun r => (r : Rat) / 100000)) ∧
    (∀ p : CPUProduct, p.price = p.price_raw.map (fun r => (r : Rat) / 100000)) ∧
    (∀ p : SubscriptionPrice, p.price = (p.price_raw : Rat) / 100000) ∧
    (∀ i n e, (GPUProduct.mk i n 350000 none e).price = (3.5 : Rat)) ∧
    (∀ i n e, (GPUProduct.mk i n 350000 none e).spot_price = none) ∧
    (∀ i n e, (CPUProduct.mk i n none e).price = none) ∧
    (∀ i n e r, (GPUProduct.mk i n 350000 (some r) e).spot_price =
      some ((r : Rat) / 100000)) := by
  refine ⟨?_, ?_, ?_, ?_, ?_, ?_, ?_, ?_⟩
  · intro p; rfl
  · intro p
    cases h : p.spot_price_raw <;> simp [GPUProduct.spot_price, h]
  · intro p
    cases h : p.price_raw <;> simp [CPUProduct.price, h]
  · intro p; rfl
  · intro i n e
    show (350000 : Rat) / 100000 = (3.5 : Rat)
    norm_num
  · intro i n e; rfl
  · intro i n e; rfl
  · intro i n e r; rfl

/-- C7: the request models range-validate the disk-size field locally: for
every integer d, constructing `CreateInstanceRequest` (or
`UpdateInstanceRequest` with `disk_size` provided) succeeds exactly when
20 ≤ d ≤ 1000, raising a validation error otherwise; and omitting
`disk_size` from `CreateInstanceRequest` defaults it to 50. -/
theorem disk_size_bounds :
    (∀ (nm ty : String) (d : Int),
      (∃ r, CreateInstanceRequest.validate
        [("name", .str nm), ("instance_type", .str ty), ("disk_size", .num d)] = .ok r) ↔
      (20 ≤ d ∧ d ≤ 1000)) ∧
    (∀ d : Int,
      (∃ r, UpdateInstanceRequest.validate [("disk_size", .num d)] = .ok r) ↔
      (20 ≤ d ∧ d ≤ 1000)) ∧
    (∀ (nm ty : String),
      CreateInstanceRequest.validate [("name", .str nm), ("instance_type", .str ty)] =
        .ok ⟨nm, ty, 50, none⟩) := by
  refine ⟨?_, ?_, ?_⟩
  · intro nm ty d
    simp only [CreateInstanceRequest.validate, Json.reqField, Json.lookup, Json.optStr,
      Json.optField, Json.asStr, Json.asInt, List.find?]
    simp [Bind.bind, Except.bind, Json.asStr, Except.map]
    split_ifs with h1 h2 <;> simp <;> omega
  · intro d
    simp only [UpdateInstanceRequest.validate, Json.optStr, Json.optInt, Json.optField,
      Json.lookup, Json.asStr, Json.asInt, List.find?]
    simp [Bind.bind, Except.bind, Except.map]
    split_ifs with h1 h2 <;> simp <;> omega
  · intro nm ty
    rfl

/-- C6 counterexample: `CreateInstanceRequest` (the request model of
`novita/models/gpu.py` used by the instances resource) has fields `name`,
`instance_type`, `disk_size` and `ssh_key` — constructing it with the
claim's keyword arguments (`name="t"`, `product_id="p-1"`, `gpu_num=1`,
`rootfs_size=50`, `image_url="img"`, `kind="gpu"`) fails with a validation
error on the missing required `instance_type` field, so no serialization
with a `productId` alias key or `gpuNum` mapping can be produced. -/
theorem create_instance_request_claim_counterexample :
    CreateInstanceRequest.validate
      [("name", .str "t"), ("product_id", .str "p-1"), ("gpu_num", .num 1),
       ("rootfs_size", .num 50), ("image_url", .str "img"), ("kind", .str "gpu")] =
      .error (.validationError "instance_type: Field required") := rfl

/-- C6 amended: round-trip of the request model actually declared in
`novita/models/gpu.py`: constructing a `CreateInstanceRequest`, serializing
it with `model_dump(exclude_none=True)` and re-validating the echo
preserves every field; the serialized keys are exactly the snake_case
field names in declaration order (with the absent optional `ssh_key`
dropped) — there is no `productId` alias key and no `gpuNum` key. -/
theorem create_instance_request_roundtrip :
    (∀ r : CreateInstanceRequest, 20 ≤ r.disk_size → r.disk_size ≤ 1000 →
      CreateInstanceRequest.validate r.model_dump_exclude_none = .ok r) ∧
    (∀ r : CreateInstanceRequest,
      r.model_dump_exclude_none.map Prod.fst =
        ["name", "instance_type", "disk_size"] ++
          (match r.ssh_key with
           | some _ => ["ssh_key"]
           | none => [])) ∧
    (∀ r : CreateInstanceRequest,
      "productId" ∉ r.model_dump_exclude_none.map Prod.fst ∧
      "gpuNum" ∉ r.model_dump_exclude_none.map Prod.fst) := by
  refine ⟨?_, ?_, ?_⟩
  · rintro ⟨nm, ty, d, key⟩ h1 h2
    simp only [CreateInstanceRequest.disk_size] at h1 h2
    cases key with
    | none =>
      simp only [CreateInstanceRequest.model_dump_exclude_none,
        CreateInstanceRequest.validate, Json.reqField, Json.lookup, Json.optStr,
        Json.optField, Json.asStr, Json.asInt, List.find?]
      simp [Bind.bind, Except.bind, Except.map]
      split_ifs with hlt hgt
      · exact absurd hlt (by omega)
      · exact absurd hgt (by omega)
      · rfl
    | some s =>
      simp only [CreateInstanceRequest.model_dump_exclude_none,
        CreateInstanceRequest.validate, Json.reqField, Json.lookup, Json.optStr,
        Json.optField, Json.asStr, Json.asInt, List.find?]
      simp [Bind.bind, Except.bind, Except.map]
      split_ifs with hlt hgt
      · exact absurd hlt (by omega)
      · exact absurd hgt (by omega)
      · rfl
  · rintro ⟨nm, ty, d, key⟩
    cases key <;> rfl
  · rintro ⟨nm, ty, d, key⟩
    cases key <;> constructor <;>
      simp [CreateInstanceRequest.model_dump_exclude_none]

/-- Witness for `create_instance_request_roundtrip` at the concrete request
`CreateInstanceRequest(name="t", instance_type="A10", disk_size=50)`. -/
theorem create_instance_request_roundtrip_witness :
    CreateInstanceRequest.validate
      (CreateInstanceRequest.mk "t" "A10" 50 none).model_dump_exclude_none =
      .ok ⟨"t", "A10", 50, none⟩ :=
  create_instance_request_roundtrip.1 ⟨"t", "A10", 50, none⟩ (by norm_num) (by norm_num)

/-- A concrete instance element payload, as in the unit tests' mocked
envelope. -/
def exampleInstancePayload : Json :=
  .obj [("instance_id", .str "inst-1"), ("name", .str "test-1"),
        ("instance_type", .str "A100_80GB"), ("status", .str "RUNNING"),
        ("disk_size", .num 50), ("created_at", .num 1234567890)]

/-- The parsed form of `exampleInstancePayload`. -/
def exampleInstanceInfo : InstanceInfo :=
  ⟨"inst-1", "test-1", "A100_80GB", "RUNNING", 50, 1234567890, none, none, none⟩

/-- C1 counterexample: on the documented envelope
`{"instances": [...], "total": 1}` with one element, `Instances.list`
returns the validated `ListInstancesResponse` envelope model — in
caller-visible JSON shape an object still carrying the envelope keys
`instances` and `total` — and not the plain one-element collection the
claim requires for every resource client's `list()`. -/
theorem instances_list_envelope_counterexample :
    (Instances.list_parse (.obj [("instances", .arr [exampleInstancePayload]),
        ("total", .num 1)])).map ListInstancesResponse.model_dump =
      .ok (ListInstancesResponse.model_dump ⟨[exampleInstanceInfo], 1⟩) ∧
    ListInstancesResponse.model_dump ⟨[exampleInstanceInfo], 1⟩ ≠
      .arr [InstanceInfo.model_dump exampleInstanceInfo] :=
  ⟨rfl, fun h => Json.noConfusion h⟩

/-- Element-wise network validation of a list of JSON objects succeeds and
wraps each object's fields. -/
theorem validateAll_network_objs :
    ∀ fss : List (List (String × Json)),
      validateAll NetworkModel.model_validate (fss.map Json.obj) =
        .ok (fss.map NetworkModel.mk) := by
  intro fss
  induction fss with
  | nil => rfl
  | cons f fss ih =>
    simp only [List.map_cons, validateAll, NetworkModel.model_validate]
    rw [ih]
    rfl

/-- C1 amended: `Networks.list` and `Products.list` (sync and async)
return the unwrapped plain element list of the envelope (`networks` /
`data`), whose length equals the number of payload elements; but
`Instances.list` returns the validated pagination envelope model itself
(element list plus `total`), not a plain list — its element count and
`total` still match the payload. -/
theorem list_unwrap_amended :
    (∀ fss : List (List (String × Json)),
      Networks.list_parse (.obj [("networks", .arr (fss.map Json.obj))]) =
        .ok (fss.map NetworkModel.mk) ∧
      (fss.map NetworkModel.mk).length = fss.length) ∧
    (∀ fss : List (List (String × Json)),
      AsyncNetworks.list_parse (.obj [("networks", .arr (fss.map Json.obj))]) =
        .ok (fss.map NetworkModel.mk)) ∧
    (∀ elems l, Products.list_parse (.obj [("data", .arr elems)]) = .ok l →
      l.length = elems.length) ∧
    (∀ elems l, AsyncProducts.list_parse (.obj [("data", .arr elems)]) = .ok l →
      l.length = elems.length) ∧
    (∀ elems (t : Int) r,
      Instances.list_parse (.obj [("instances", .arr elems), ("total", .num t)]) =
        .ok r →
      r.instances.length = elems.length ∧ r.total = t) := by
  refine ⟨?_, ?_, ?_, ?_, ?_⟩
  · intro fss
    constructor
    · simp only [Networks.list_parse, ListNetworksResponse.model_validate, Json.lookup,
        List.find?]
      simp
      rw [validateAll_network_objs fss]
      rfl
    · simp
  · intro fss
    simp only [AsyncNetworks.list_parse, ListNetworksResponse.model_validate, Json.lookup,
      List.find?]
    simp
    rw [validateAll_network_objs fss]
    rfl
  · intro elems l h
    simp only [Products.list_parse, ListGPUProductsResponse.model_validate, Json.lookup,
      List.find?] at h
    simp at h
    exact validateAll_ok_length _ _ _ h
  · intro elems l h
    simp only [AsyncProducts.list_parse, ListGPUProductsResponse.model_validate, Json.lookup,
      List.find?] at h
    simp at h
    exact validateAll_ok_length _ _ _ h
  · intro elems t r h
    simp only [Instances.list_parse, ListInstancesResponse.model_validate, Json.reqField,
      Json.lookup, List.find?, Json.asInt] at h
    simp [Bind.bind, Except.bind] at h
    cases hv : validateAll InstanceInfo.model_validate elems with
    | error e => rw [hv] at h; cases h
    | ok l =>
      rw [hv] at h
      cases h
      exact ⟨validateAll_ok_length _ _ _ hv, rfl⟩

/-- A concrete GPU product element payload, as in the unit tests' mocked
envelope. -/
def exampleGpuProductPayload : Json :=
  .obj [("id", .str "gpu-a100-80gb"), ("name", .str "A100 80GB"),
        ("price", .num 350000), ("spotPrice", .num 200000)]

/-- The parsed form of `exampleGpuProductPayload`. -/
def exampleGpuProducts : List GPUProduct :=
  [⟨"gpu-a100-80gb", "A100 80GB", 350000, some 200000,
    [("id", .str "gpu-a100-80gb"), ("name", .str "A100 80GB"),
     ("price", .num 350000), ("spotPrice", .num 200000)]⟩]

/-- Witness for `list_unwrap_amended` at concrete one-element envelopes for
the products and instances endpoints. -/
theorem list_unwrap_amended_witness :
    (exampleGpuProducts.length = [exampleGpuProductPayload].length) ∧
    (([exampleInstanceInfo] : List InstanceInfo).length =
        [exampleInstancePayload].length ∧ (1 : Int) = 1) :=
  ⟨list_unwrap_amended.2.2.1 [exampleGpuProductPayload] exampleGpuProducts rfl,
   list_unwrap_amended.2.2.2.2 [exampleInstancePayload] 1 ⟨[exampleInstanceInfo], 1⟩ rfl⟩

/-- C9: given instance metadata whose only connectivity hint is the
port-mapping entry `{"port": 22, "endpoint": "node1.example.com:22222"}`
and no explicit SSH command, the SSH-endpoint extraction returns
`user="root"`, `host="node1.example.com"`, `port=22222`. -/
theorem ssh_endpoint_extraction_scenario :
    (get_ssh_endpoint none [⟨22, "node1.example.com:22222"⟩]).map
        (fun e => (e.user, e.host, e.port)) =
      .ok ("root", "node1.example.com", (22222 : Int)) := rfl

/-- C5: the response-to-exception translator passes every 2xx response
through unchanged and, for every non-2xx response, raises exactly one typed
exception determined by the status code: 401 AuthenticationError, 400
BadRequestError whose message is the body's `message` field when present,
404 NotFoundError, 429 RateLimitError, and any other non-2xx status
APIError carrying the status code and raw body; and this holds uniformly
for every resource-client call, since a call only applies its response
parser to a payload the translator passed through. -/
theorem translator_status_mapping :
    (∀ resp : HttpResponse, 200 ≤ resp.status → resp.status < 300 →
      handle_response resp = .ok resp) ∧
    (∀ resp : HttpResponse, resp.status = 401 →
      handle_response resp = .error (.authenticationError "Authentication failed")) ∧
    (∀ resp : HttpResponse, resp.status = 400 →
      handle_response resp = .error (.badRequestError (badRequestMessage resp.body))) ∧
    (∀ (fields : List (String × Json)) (m : String),
      Json.lookup fields "message" = some (.str m) →
      badRequestMessage (.obj fields) = m) ∧
    (∀ resp : HttpResponse, resp.status = 404 →
      handle_response resp = .error (.notFoundError "Resource not found")) ∧
    (∀ resp : HttpResponse, resp.status = 429 →
      handle_response resp = .error (.rateLimitError "Rate limit exceeded")) ∧
    (∀ resp : HttpResponse, ¬(200 ≤ resp.status ∧ resp.status < 300) →
      resp.status ≠ 401 → resp.status ≠ 400 → resp.status ≠ 404 → resp.status ≠ 429 →
      handle_response resp = .error (.apiError resp.status ("Server error: " ++ resp.text))) ∧
    (∀ (α : Type) (parse : Json → Except PyErr α) (resp : HttpResponse) (e : PyErr),
      handle_response resp = .error e → runCall parse resp = .error e) ∧
    (∀ (α : Type) (parse : Json → Except PyErr α) (resp : HttpResponse),
      handle_response resp = .ok resp → runCall parse resp = parse resp.body) := by
  refine ⟨?_, ?_, ?_, ?_, ?_, ?_, ?_, ?_, ?_⟩
  · intro resp h1 h2
    simp [handle_response, h1, h2]
  · intro resp h
    simp [handle_response, h]
  · intro resp h
    simp [handle_response, h]
  · intro fields m h
    simp [badRequestMessage, h]
  · intro resp h
    simp [handle_response, h]
  · intro resp h
    simp [handle_response, h]
  · intro resp h1 h2 h3 h4 h5
    simp [handle_response, h1, h2, h3, h4, h5]
  · intro α parse resp e h
    simp [runCall, h]
  · intro α parse resp h
    simp [runCall, h]

/-- Witness for `translator_status_mapping` at one concrete response per
status class, including the uniformity clause at a concrete parser. -/
theorem translator_status_mapping_witness :
    handle_response ⟨200, .null, "ok"⟩ = .ok ⟨200, .null, "ok"⟩ ∧
    handle_response ⟨401, .null, ""⟩ =
      .error (.authenticationError "Authentication failed") ∧
    handle_response ⟨400, .obj [("message", .str "X")], ""⟩ =
      .error (.badRequestError "X") ∧
    handle_response ⟨404, .null, ""⟩ = .error (.notFoundError "Resource not found") ∧
    handle_response ⟨429, .null, ""⟩ = .error (.rateLimitError "Rate limit exceeded") ∧
    handle_response ⟨500, .null, "boom"⟩ =
      .error (.apiError 500 ("Server error: " ++ "boom")) ∧
    runCall Networks.list_parse ⟨401, .null, ""⟩ =
      .error (.authenticationError "Authentication failed") := by
  refine ⟨?_, ?_, ?_, ?_, ?_, ?_, ?_⟩
  · exact translator_status_mapping.1 ⟨200, .null, "ok"⟩ (by norm_num) (by norm_num)
  · exact translator_status_mapping.2.1 ⟨401, .null, ""⟩ rfl
  · rw [translator_status_mapping.2.2.1 ⟨400, .obj [("message", .str "X")], ""⟩ rfl,
      translator_status_mapping.2.2.2.1 [("message", .str "X")] "X" rfl]
  · exact translator_status_mapping.2.2.2.2.1 ⟨404, .null, ""⟩ rfl
  · exact translator_status_mapping.2.2.2.2.2.1 ⟨429, .null, ""⟩ rfl
  · exact translator_status_mapping.2.2.2.2.2.2.1 ⟨500, .null, "boom"⟩ (by norm_num)
      (by norm_num) (by norm_num) (by norm_num) (by norm_num)
  · exact translator_status_mapping.2.2.2.2.2.2.2.1 (List NetworkModel)
      Networks.list_parse ⟨401, .null, ""⟩ (.authenticationError "Authentication failed")
      (translator_status_mapping.2.1 ⟨401, .null, ""⟩ rfl)

/-- C4: for every paired sync/async resource-client method of the
instances, networks and products resources, given identical response
payloads the two variants issue the same transport requests and compute
identical results (hence structurally equal values and the same exception
kinds), and the two class variants expose an identical method-name
surface. -/
theorem sync_async_equivalence :
    (Instances.methodNames = AsyncInstances.methodNames ∧
     Networks.methodNames = AsyncNetworks.methodNames ∧
     Products.methodNames = AsyncProducts.methodNames) ∧
    (∀ r, Instances.create_requests r = AsyncInstances.create_requests r) ∧
    (Instances.list_requests = AsyncInstances.list_requests) ∧
    (∀ i, Instances.get_requests i = AsyncInstances.get_requests i) ∧
    (∀ i r, Instances.edit_requests i r = AsyncInstances.edit_requests i r) ∧
    (∀ i, Instances.start_requests i = AsyncInstances.start_requests i ∧
          Instances.stop_requests i = AsyncInstances.stop_requests i ∧
          Instances.delete_requests i = AsyncInstances.delete_requests i ∧
          Instances.restart_requests i = AsyncInstances.restart_requests i ∧
          Instances.convert_to_monthly_requests i =
            AsyncInstances.convert_to_monthly_requests i) ∧
    (∀ i t, Instances.upgrade_requests i t = AsyncInstances.upgrade_requests i t ∧
            Instances.migrate_requests i t = AsyncInstances.migrate_requests i t) ∧
    (∀ i (h : Int), Instances.renew_requests i h = AsyncInstances.renew_requests i h) ∧
    (∀ p, Instances.create_parse p = AsyncInstances.create_parse p ∧
          Instances.list_parse p = AsyncInstances.list_parse p ∧
          Instances.get_parse p = AsyncInstances.get_parse p ∧
          Instances.edit_parse p = AsyncInstances.edit_parse p ∧
          Instances.start_parse p = AsyncInstances.start_parse p ∧
          Instances.stop_parse p = AsyncInstances.stop_parse p ∧
          Instances.delete_parse p = AsyncInstances.delete_parse p ∧
          Instances.restart_parse p = AsyncInstances.restart_parse p ∧
          Instances.upgrade_parse p = AsyncInstances.upgrade_parse p ∧
          Instances.migrate_parse p = AsyncInstances.migrate_parse p ∧
          Instances.renew_parse p = AsyncInstances.renew_parse p ∧
          Instances.convert_to_monthly_parse p =
            AsyncInstances.convert_to_monthly_parse p) ∧
    (Networks.list_requests = AsyncNetworks.list_requests) ∧
    (∀ i, Networks.get_requests i = AsyncNetworks.get_requests i ∧
          Networks.delete_requests i = AsyncNetworks.delete_requests i) ∧
    (∀ kw, Networks.create_requests kw = AsyncNetworks.create_requests kw) ∧
    (∀ i kw, Networks.update_requests i kw = AsyncNetworks.update_requests i kw) ∧
    (∀ p, Networks.list_parse p = AsyncNetworks.list_parse p ∧
          Networks.get_parse p = AsyncNetworks.get_parse p ∧
          Networks.create_parse p = AsyncNetworks.create_parse p ∧
          Networks.update_parse p = AsyncNetworks.update_parse p) ∧
    (Products.list_requests = AsyncProducts.list_requests ∧
     Products.list_cpu_requests = AsyncProducts.list_cpu_requests) ∧
    (∀ p, Products.list_parse p = AsyncProducts.list_parse p ∧
          Products.list_cpu_parse p = AsyncProducts.list_cpu_parse p) := by
  refine ⟨⟨rfl, rfl, rfl⟩, fun r => rfl, rfl, fun i => rfl, fun i r => rfl,
    fun i => ⟨rfl, rfl, rfl, rfl, rfl⟩, fun i t => ⟨rfl, rfl⟩, fun i h => rfl,
    fun p => ⟨rfl, rfl, rfl, rfl, rfl, rfl, rfl, rfl, rfl, rfl, rfl, rfl⟩,
    rfl, fun i => ⟨rfl, rfl⟩, fun kw => rfl, fun i kw => rfl,
    fun p => ⟨rfl, rfl, rfl, rfl⟩, ⟨rfl, rfl⟩, fun p => ⟨rfl, rfl⟩⟩


/-- Witness for `disk_size_bounds` at the concrete disk size 50. -/
theorem disk_size_bounds_witness :
    (∃ r, CreateInstanceRequest.validate
      [("name", .str "t"), ("instance_type", .str "A10"), ("disk_size", .num 50)] =
        .ok r) ∧
    (20 ≤ (50 : Int) ∧ (50 : Int) ≤ 1000) :=
  ⟨(disk_size_bounds.1 "t" "A10" 50).mpr (by norm_num), by norm_num⟩

/-- C8 counterexample: `Metrics.list` and `AsyncMetrics.list`
(`metrics.py:14-24, 30-40`), exposed on the facade as
`client.gpu.metrics`, raise `NotImplementedError` unconditionally and
issue zero transport requests — refuting the claim that every
resource-client method issues exactly one transport request per
invocation. -/
theorem metrics_list_zero_requests_counterexample :
    Metrics.list_requests.length = 0 ∧
    AsyncMetrics.list_requests.length = 0 ∧
    Metrics.list_requests.length ≠ 1 ∧
    AsyncMetrics.list_requests.length ≠ 1 ∧
    Metrics.list_run =
      .error (.notImplementedError "Metrics API endpoints not yet specified") ∧
    AsyncMetrics.list_run =
      .error (.notImplementedError "Metrics API endpoints not yet specified") :=
  ⟨rfl, rfl, by decide, by decide, rfl, rfl⟩

/-- C8 amended: every implemented resource-client method of every facade
resource (clusters, endpoints, images, instances, jobs, networks,
products, registries, storages, templates — sync and async) issues
exactly one transport request (one get or one post) per invocation, for
every input, with no implicit retries and no implicit pagination
traversal; the single exception is the unimplemented metrics stub,
whose `list` (sync and async) issues zero transport requests and raises
`NotImplementedError` unconditionally. -/
theorem single_transport_call_amended :
    (∀ r, (Instances.create_requests r).length = 1 ∧
          (AsyncInstances.create_requests r).length = 1) ∧
    (Instances.list_requests.length = 1 ∧ AsyncInstances.list_requests.length = 1) ∧
    (∀ i, (Instances.get_requests i).length = 1 ∧
          (AsyncInstances.get_requests i).length = 1 ∧
          (Instances.start_requests i).length = 1 ∧
          (AsyncInstances.start_requests i).length = 1 ∧
          (Instances.stop_requests i).length = 1 ∧
          (AsyncInstances.stop_requests i).length = 1 ∧
          (Instances.delete_requests i).length = 1 ∧
          (AsyncInstances.delete_requests i).length = 1 ∧
          (Instances.restart_requests i).length = 1 ∧
          (AsyncInstances.restart_requests i).length = 1 ∧
          (Instances.convert_to_monthly_requests i).length = 1 ∧
          (AsyncInstances.convert_to_monthly_requests i).length = 1) ∧
    (∀ i r, (Instances.edit_requests i r).length = 1 ∧
            (AsyncInstances.edit_requests i r).length = 1) ∧
    (∀ i t, (Instances.upgrade_requests i t).length = 1 ∧
            (AsyncInstances.upgrade_requests i t).length = 1 ∧
            (Instances.migrate_requests i t).length = 1 ∧
            (AsyncInstances.migrate_requests i t).length = 1) ∧
    (∀ i (h : Int), (Instances.renew_requests i h).length = 1 ∧
                    (AsyncInstances.renew_requests i h).length = 1) ∧
    (Networks.list_requests.length = 1 ∧ AsyncNetworks.list_requests.length = 1) ∧
    (∀ i, (Networks.get_requests i).length = 1 ∧
          (AsyncNetworks.get_requests i).length = 1 ∧
          (Networks.delete_requests i).length = 1 ∧
          (AsyncNetworks.delete_requests i).length = 1) ∧
    (∀ kw, (Networks.create_requests kw).length = 1 ∧
           (AsyncNetworks.create_requests kw).length = 1) ∧
    (∀ i kw, (Networks.update_requests i kw).length = 1 ∧
             (AsyncNetworks.update_requests i kw).length = 1) ∧
    (Products.list_requests.length = 1 ∧ AsyncProducts.list_requests.length = 1 ∧
     Products.list_cpu_requests.length = 1 ∧
     AsyncProducts.list_cpu_requests.length = 1) ∧
    (Clusters.list_requests.length = 1 ∧ AsyncClusters.list_requests.length = 1) ∧
    (Endpoints.get_limit_ranges_requests.length = 1 ∧
     AsyncEndpoints.get_limit_ranges_requests.length = 1 ∧
     Endpoints.list_requests.length = 1 ∧ AsyncEndpoints.list_requests.length = 1) ∧
    (∀ kw, (Endpoints.create_requests kw).length = 1 ∧
           (AsyncEndpoints.create_requests kw).length = 1) ∧
    (∀ i, (Endpoints.get_requests i).length = 1 ∧
          (AsyncEndpoints.get_requests i).length = 1 ∧
          (Endpoints.delete_requests i).length = 1 ∧
          (AsyncEndpoints.delete_requests i).length = 1) ∧
    (∀ i kw, (Endpoints.update_requests i kw).length = 1 ∧
             (AsyncEndpoints.update_requests i kw).length = 1) ∧
    (Images.list_requests.length = 1 ∧ AsyncImages.list_requests.length = 1 ∧
     Images.get_quota_requests.length = 1 ∧
     AsyncImages.get_quota_requests.length = 1) ∧
    (∀ kw, (Images.create_requests kw).length = 1 ∧
           (AsyncImages.create_requests kw).length = 1) ∧
    (∀ i kw, (Images.update_requests i kw).length = 1 ∧
             (AsyncImages.update_requests i kw).length = 1) ∧
    (∀ i, (Images.delete_requests i).length = 1 ∧
          (AsyncImages.delete_requests i).length = 1) ∧
    (Jobs.list_requests.length = 1 ∧ AsyncJobs.list_requests.length = 1) ∧
    (∀ i, (Jobs.break_job_requests i).length = 1 ∧
          (AsyncJobs.break_job_requests i).length = 1) ∧
    (Registries.list_requests.length = 1 ∧ AsyncRegistries.list_requests.length = 1) ∧
    (∀ kw, (Registries.create_requests kw).length = 1 ∧
           (AsyncRegistries.create_requests kw).length = 1) ∧
    (∀ i, (Registries.delete_requests i).length = 1 ∧
          (AsyncRegistries.delete_requests i).length = 1) ∧
    (Storages.list_requests.length = 1 ∧ AsyncStorages.list_requests.length = 1) ∧
    (∀ kw, (Storages.create_requests kw).length = 1 ∧
           (AsyncStorages.create_requests kw).length = 1) ∧
    (∀ i kw, (Storages.update_requests i kw).length = 1 ∧
             (AsyncStorages.update_requests i kw).length = 1) ∧
    (∀ i, (Storages.delete_requests i).length = 1 ∧
          (AsyncStorages.delete_requests i).length = 1) ∧
    (Templates.list_requests.length = 1 ∧ AsyncTemplates.list_requests.length = 1) ∧
    (∀ i, (Templates.get_requests i).length = 1 ∧
          (AsyncTemplates.get_requests i).length = 1 ∧
          (Templates.delete_requests i).length = 1 ∧
          (AsyncTemplates.delete_requests i).length = 1) ∧
    (∀ kw, (Templates.create_requests kw).length = 1 ∧
           (AsyncTemplates.create_requests kw).length = 1) ∧
    (Metrics.list_requests.length = 0 ∧ AsyncMetrics.list_requests.length = 0 ∧
     Metrics.list_run =
       .error (.notImplementedError "Metrics API endpoints not yet specified") ∧
     AsyncMetrics.list_run =
       .error (.notImplementedError "Metrics API endpoints not yet specified")) := by
  refine ⟨fun r => ⟨rfl, rfl⟩, ⟨rfl, rfl⟩,
    fun i => ⟨rfl, rfl, rfl, rfl, rfl, rfl, rfl, rfl, rfl, rfl, rfl, rfl⟩,
    fun i r => ⟨rfl, rfl⟩, fun i t => ⟨rfl, rfl, rfl, rfl⟩, fun i h => ⟨rfl, rfl⟩,
    ⟨rfl, rfl⟩, fun i => ⟨rfl, rfl, rfl, rfl⟩, fun kw => ⟨rfl, rfl⟩,
    fun i kw => ⟨rfl, rfl⟩, ⟨rfl, rfl, rfl, rfl⟩,
    ⟨rfl, rfl⟩, ⟨rfl, rfl, rfl, rfl⟩, fun kw => ⟨rfl, rfl⟩,
    fun i => ⟨rfl, rfl, rfl, rfl⟩, fun i kw => ⟨rfl, rfl⟩,
    ⟨rfl, rfl, rfl, rfl⟩, fun kw => ⟨rfl, rfl⟩, fun i kw => ⟨rfl, rfl⟩,
    fun i => ⟨rfl, rfl⟩, ⟨rfl, rfl⟩, fun i => ⟨rfl, rfl⟩,
    ⟨rfl, rfl⟩, fun kw => ⟨rfl, rfl⟩, fun i => ⟨rfl, rfl⟩,
    ⟨rfl, rfl⟩, fun kw => ⟨rfl, rfl⟩, fun i kw => ⟨rfl, rfl⟩, fun i => ⟨rfl, rfl⟩,
    ⟨rfl, rfl⟩, fun i => ⟨rfl, rfl, rfl, rfl⟩, fun kw => ⟨rfl, rfl⟩,
    ⟨rfl, rfl, rfl, rfl⟩⟩
